import Mathlib

/-!
Shallow embedding of the orchestrator repository's flow dispatch engine
(`internal/service/orchestrator.go`) and batch execution controller
(`cmd/client-facebook/main.go`, batch-runner variant).

Remote collaborators (fetcher, creator, publisher) are modelled as pure
oracles `Request → Except String Response`; each run additionally returns
the ordered trace of collaborator calls it made, so that claims about
"no collaborator is invoked" and "exactly one Transform call" are statable.
Go maps of type `map[string]string` are modelled as association lists with
a lookup that yields `""` for a missing key, matching Go's zero-value
semantics. Logging, wall-clock sleeps and durations carry no data flow and
are omitted.
-/

namespace Orchestrator

/-- Prior analysis attached to a fetched item (proto `ContentAnalysis`);
only the summary field is read by the orchestrator. -/
structure Analysis where
  summary : String
  deriving DecidableEq, Repr

/-- A fetched content item (proto `ContentItem`): source id, raw text,
optional prior analysis (`Analysis` is a nullable message, hence `Option`). -/
structure ContentItem where
  sourceId : String
  contentText : String
  analysis : Option Analysis
  deriving DecidableEq, Repr

/-- Request to the Fetcher collaborator (proto `FetchRequest`),
as populated by `runCrossPollinator`. -/
structure FetchRequest where
  platform : String
  query : String
  deriving DecidableEq, Repr

/-- Fetcher response (proto `FetchResponse`): the fetched items. -/
structure FetchResponse where
  items : List ContentItem
  deriving DecidableEq, Repr

/-- Request to the Creator collaborator (proto `RemixRequest`). -/
structure RemixRequest where
  originalContent : String
  sourcePlatform : String
  targetPlatform : String
  tone : String
  deriving DecidableEq, Repr

/-- Creator response (proto `RemixResponse`). -/
structure RemixResponse where
  content : String
  deriving DecidableEq, Repr

/-- Request to the Publisher collaborator (proto `PublishRequest`).
The credentials map is modelled as an association list. -/
structure PublishRequest where
  content : String
  platform : String
  credentials : List (String × String)
  deriving DecidableEq, Repr

/-- Publisher response (proto `PublishResponse`). -/
structure PublishResponse where
  postUrl : String
  deriving DecidableEq, Repr

/-- The RPC request (proto `PipelineRequest`): flow identifier, parameter
mapping, optional model-provider selector (proto zero value `""`). -/
structure PipelineRequest where
  flowName : String
  params : List (String × String)
  modelProvider : String := ""
  deriving DecidableEq, Repr

/-- The RPC response (proto `PipelineResponse`). `errorMessage` is the
proto field `error_message`, whose zero value is the empty string. -/
structure PipelineResponse where
  pipelineId : String
  status : String
  outputUrls : List String
  errorMessage : String := ""
  deriving DecidableEq, Repr

/-- gRPC status codes used by the dispatcher. -/
inductive ErrCode where
  | invalidArgument
  | unimplemented
  deriving DecidableEq, Repr

/-- Errors `RunPipeline` can return: a gRPC `status.Error`, or the
`fmt.Errorf("fetch failed: %w", err)` wrapper, which carries the
collaborator's original error verbatim. -/
inductive PipelineError where
  | grpcStatus (code : ErrCode) (msg : String)
  | fetchFailed (original : String)
  deriving DecidableEq, Repr

/-- Go map read `m[k]` on a `map[string]string`: the stored value,
or the zero value `""` when the key is absent. -/
def mapGet (m : List (String × String)) (k : String) : String :=
  match m.lookup k with
  | some v => v
  | none => ""

/-- The three collaborator clients held by `OrchestratorService`,
as pure oracles. -/
structure Collaborators where
  fetchContent : FetchRequest → Except String FetchResponse
  remixContent : RemixRequest → Except String RemixResponse
  publishContent : PublishRequest → Except String PublishResponse

/-- One observable collaborator invocation, recorded in call order. -/
inductive CollabCall where
  | fetch (req : FetchRequest)
  | remix (req : RemixRequest)
  | publish (req : PublishRequest)
  deriving DecidableEq, Repr

/-- Content-source selection in the loop body of `runCrossPollinator`:
`contentToRemix := item.ContentText`, overwritten by the analysis summary
when the analysis is non-nil and the summary non-empty. -/
def chooseContent (item : ContentItem) : String :=
  let contentToRemix := item.contentText
  match item.analysis with
  | none => contentToRemix
  | some a => if a.summary ≠ "" then a.summary else contentToRemix

/-- One iteration of the item loop of `runCrossPollinator` (steps 3 and 4:
remix, then publish). Yields the published post URL when both stages
succeed (`none` when either fails, matching the `continue` statements),
plus the collaborator calls made. The credentials map passed to the
publisher is the literal `map[string]string{"internal_call": "true"}`
from the source. -/
def stepItem (s : Collaborators) (targetPlatform : String) (item : ContentItem) :
    Option String × List CollabCall :=
  let remixReq : RemixRequest :=
    { originalContent := chooseContent item, sourcePlatform := "reddit",
      targetPlatform := targetPlatform, tone := "professional" }
  match s.remixContent remixReq with
  | Except.error _ => (none, [CollabCall.remix remixReq])
  | Except.ok remixRes =>
    let pubReq : PublishRequest :=
      { content := remixRes.content, platform := targetPlatform,
        credentials := [("internal_call", "true")] }
    match s.publishContent pubReq with
    | Except.error _ => (none, [CollabCall.remix remixReq, CollabCall.publish pubReq])
    | Except.ok pubRes =>
      (some pubRes.postUrl, [CollabCall.remix remixReq, CollabCall.publish pubReq])

/-- The item loop `for i, item := range fetchRes.Items` of
`runCrossPollinator`, with its `if i >= limit { break }` guard; returns
the accumulated `outputURLs` (in order of successful publication) and the
collaborator call trace. The source sets the loop-local `limit := 1`. -/
def processLoop (s : Collaborators) (targetPlatform : String) (limit : Nat) :
    Nat → List ContentItem → List String × List CollabCall
  | _, [] => ([], [])
  | i, item :: rest =>
    if limit ≤ i then ([], [])
    else
      let r := stepItem s targetPlatform item
      let t := processLoop s targetPlatform limit (i + 1) rest
      (match r.1 with
        | some u => u :: t.1
        | none => t.1,
       r.2 ++ t.2)

/-- `runCrossPollinator`: parameter validation, mandatory Fetch, item loop
with `limit := 1`, then the final `PipelineResponse` literal
(`PipelineId: "pipeline-123"`, `Status: "completed"`; `ErrorMessage` is
left at its zero value `""`). -/
def runCrossPollinator (s : Collaborators) (params : List (String × String)) :
    Except PipelineError PipelineResponse × List CollabCall :=
  let query := mapGet params "query"
  let targetPlatform := mapGet params "target_platform"
  if query = "" ∨ targetPlatform = "" then
    (Except.error (PipelineError.grpcStatus ErrCode.invalidArgument
      "missing params: query, target_platform"), [])
  else
    let fetchReq : FetchRequest := { platform := "reddit", query := query }
    match s.fetchContent fetchReq with
    | Except.error e => (Except.error (PipelineError.fetchFailed e), [CollabCall.fetch fetchReq])
    | Except.ok fetchRes =>
      let pl := processLoop s targetPlatform 1 0 fetchRes.items
      (Except.ok { pipelineId := "pipeline-123", status := "completed",
                   outputUrls := pl.1, errorMessage := "" },
       CollabCall.fetch fetchReq :: pl.2)

/-- `RunPipeline`: the flow-name switch of the dispatcher. -/
def RunPipeline (s : Collaborators) (req : PipelineRequest) :
    Except PipelineError PipelineResponse × List CollabCall :=
  if req.flowName = "cross_pollinator" then
    runCrossPollinator s req.params
  else if req.flowName = "trend_jacker" then
    (Except.error (PipelineError.grpcStatus ErrCode.unimplemented
      "trend_jacker not implemented yet"), [])
  else
    (Except.error (PipelineError.grpcStatus ErrCode.invalidArgument
      ("unknown flow: " ++ req.flowName)), [])

/-! ## Batch execution controller (`cmd/client-facebook`, batch-runner) -/

/-- One pipeline entry of a tenant in `users.yaml` (Go `Pipeline`). -/
structure Pipeline where
  name : String
  enabled : Bool
  deriving DecidableEq, Repr

/-- One tenant of `users.yaml` (Go `User`): identifier, display name,
platform tag, opaque credential mapping, ordered pipeline list. -/
structure User where
  id : String
  name : String
  platform : String
  credentials : List (String × String)
  pipelines : List Pipeline
  deriving DecidableEq, Repr

/-- Go `ExecutionResult` (the wall-clock `Duration` field is omitted:
it carries no decidable content). `errCause` models the `Error error`
field (`nil` ↦ `none`). -/
structure ExecutionResult where
  userId : String
  userName : String
  pipeline : String
  status : String
  errCause : Option PipelineError
  postURLs : List String
  deriving DecidableEq, Repr

/-- The dispatcher as seen by the batch controller: the `RunPipeline`
RPC client stub. -/
def RpcClient : Type :=
  PipelineRequest → Except PipelineError PipelineResponse

/-- Go `executePipeline`: builds `params` by copying every credential
key/value of the user, issues exactly one `RunPipeline` call, and maps
its outcome to a `failed` (error captured) or `success` result. Also
returns the list of RPC requests it issued. -/
def executePipeline (client : RpcClient) (user : User) (pipeline : Pipeline)
    (modelProvider : String) : ExecutionResult × List PipelineRequest :=
  let req : PipelineRequest :=
    { flowName := pipeline.name, params := user.credentials,
      modelProvider := modelProvider }
  match client req with
  | Except.error e =>
    ({ userId := user.id, userName := user.name, pipeline := pipeline.name,
       status := "failed", errCause := some e, postURLs := [] }, [req])
  | Except.ok res =>
    ({ userId := user.id, userName := user.name, pipeline := pipeline.name,
       status := "success", errCause := none, postURLs := res.outputUrls }, [req])

/-- The inner loop of the batch runner's `main` over one tenant's
pipeline list: a disabled entry appends a `skipped` result and issues no
RPC; an enabled entry delegates to `executePipeline`. -/
def runTenantLoop (client : RpcClient) (user : User) (modelProvider : String) :
    List Pipeline → List ExecutionResult × List PipelineRequest
  | [] => ([], [])
  | p :: rest =>
    let t := runTenantLoop client user modelProvider rest
    if p.enabled then
      let r := executePipeline client user p modelProvider
      (r.1 :: t.1, r.2 ++ t.2)
    else
      ({ userId := user.id, userName := user.name, pipeline := p.name,
         status := "skipped", errCause := none, postURLs := [] } :: t.1, t.2)

/-- The outer loop of the batch runner's `main` over all tenants
(the 15-second inter-tenant sleep carries no data flow and is omitted). -/
def runBatch (client : RpcClient) (modelProvider : String) :
    List User → List ExecutionResult × List PipelineRequest
  | [] => ([], [])
  | u :: rest =>
    let t := runTenantLoop client u modelProvider u.pipelines
    let r := runBatch client modelProvider rest
    (t.1 ++ r.1, t.2 ++ r.2)

/-- The per-status counters of `printSummary`. -/
def countStatus (results : List ExecutionResult) (st : String) : Nat :=
  (results.filter (fun r => r.status = st)).length

/-- The process completion signal: `printSummary` calls `os.Exit(1)` when
`failedCount > 0`; otherwise `main` returns normally and the process
exits 0. -/
def processExitCode (results : List ExecutionResult) : Nat :=
  if 0 < countStatus results "failed" then 1 else 0

/-! ## Concrete collaborator instances and inputs, used as test vectors -/

/-- A fetcher that succeeds with zero items; remix/publish are never
reached on this path. -/
def emptyFetchCollab : Collaborators :=
  { fetchContent := fun _ => Except.ok { items := [] }
  , remixContent := fun _ => Except.error "unreached"
  , publishContent := fun _ => Except.error "unreached" }

/-- A single fetched item with no prior analysis. -/
def plainItem : ContentItem :=
  { sourceId := "r1", contentText := "golang post", analysis := none }

/-- A single fetched item with a non-empty prior summary. -/
def summarizedItem : ContentItem :=
  { sourceId := "r2", contentText := "raw reddit text",
    analysis := some { summary := "a concise summary" } }

/-- Collaborators for which every stage succeeds on one plain item. -/
def okCollab : Collaborators :=
  { fetchContent := fun _ => Except.ok { items := [plainItem] }
  , remixContent := fun r => Except.ok { content := r.originalContent }
  , publishContent := fun _ => Except.ok { postUrl := "https://posts/1" } }

/-- Collaborators whose fetcher fails. -/
def fetchFailCollab : Collaborators :=
  { fetchContent := fun _ => Except.error "reddit unavailable"
  , remixContent := fun r => Except.ok { content := r.originalContent }
  , publishContent := fun _ => Except.ok { postUrl := "https://posts/1" } }

/-- Collaborators whose remix stage always fails. -/
def remixFailCollab : Collaborators :=
  { fetchContent := fun _ => Except.ok { items := [plainItem, summarizedItem] }
  , remixContent := fun _ => Except.error "model quota exceeded"
  , publishContent := fun _ => Except.ok { postUrl := "https://posts/1" } }

/-- A well-formed cross_pollinator request. -/
def reqGolang : PipelineRequest :=
  { flowName := "cross_pollinator",
    params := [("query", "golang"), ("target_platform", "twitter")],
    modelProvider := "gemini" }

/-- A cross_pollinator request whose params also carry tenant
credentials, as the batch runner builds them. -/
def reqWithCreds : PipelineRequest :=
  { flowName := "cross_pollinator",
    params := [("query", "golang"), ("target_platform", "twitter"),
               ("page_id", "123456789"), ("access_token", "EAABs")],
    modelProvider := "gemini" }

/-- A tenant with three pipeline entries, two enabled and one disabled. -/
def sampleUser : User :=
  { id := "user-001", name := "Health Page", platform := "facebook",
    credentials := [("page_id", "123456789"), ("access_token", "EAABs")],
    pipelines := [{ name := "facebook_echo", enabled := true },
                  { name := "cross_pollinator", enabled := false },
                  { name := "trend_jacker", enabled := true }] }

/-- An RPC client stub that fails every call. -/
def failingClient : RpcClient :=
  fun _ => Except.error (PipelineError.fetchFailed "boom")

/-- Remix requests appearing in a collaborator call trace, in order. -/
def remixCallsOf (trace : List CollabCall) : List RemixRequest :=
  trace.filterMap (fun c => match c with
    | CollabCall.remix r => some r
    | _ => none)

/-- Projection of a pipeline outcome onto the `error_message` field of a
successful response (`none` when the run returned a hard error). -/
def respErrorMessage : Except PipelineError PipelineResponse → Option String
  | Except.ok r => some r.errorMessage
  | Except.error _ => none

/-! ## Helper lemmas about the embedded functions -/

/-- The output list of the item loop is the in-order filter-map of the
per-item outcome over the window the `i >= limit` guard admits. -/
theorem processLoop_fst (s : Collaborators) (tp : String) (limit : Nat) :
    ∀ (items : List ContentItem) (i : Nat),
      (processLoop s tp limit i items).1 =
        (items.take (limit - i)).filterMap (fun it => (stepItem s tp it).1) := by
  intro items
  induction items with
  | nil => intro i; simp [processLoop]
  | cons item rest ih =>
    intro i
    by_cases h : limit ≤ i
    · simp [processLoop, h, Nat.sub_eq_zero_of_le h]
    · have hstep : limit - i = (limit - (i + 1)) + 1 := by omega
      simp only [processLoop, if_neg h, hstep, List.take_succ_cons, List.filterMap_cons]
      rw [ih (i + 1)]
      cases hsi : (stepItem s tp item).1 <;> simp [hsi]

/-- Each loop iteration makes exactly one remix call, carrying the
selected content verbatim. -/
theorem remixCallsOf_stepItem (s : Collaborators) (tp : String) (item : ContentItem) :
    remixCallsOf (stepItem s tp item).2 =
      [{ originalContent := chooseContent item, sourcePlatform := "reddit",
         targetPlatform := tp, tone := "professional" }] := by
  rcases hR : s.remixContent { originalContent := chooseContent item, sourcePlatform := "reddit", targetPlatform := tp, tone := "professional" } with e | rr
  · simp [stepItem, hR, remixCallsOf]
  · rcases hP : s.publishContent { content := rr.content, platform := tp, credentials := [("internal_call", "true")] } with e2 | pr <;>
      simp [stepItem, hR, hP, remixCallsOf]

/-- Every publish call a loop iteration makes carries the hard-coded
internal credential mapping. -/
theorem stepItem_publish_credentials (s : Collaborators) (tp : String)
    (item : ContentItem) (p : PublishRequest) :
    CollabCall.publish p ∈ (stepItem s tp item).2 →
    p.credentials = [("internal_call", "true")] := by
  rcases hR : s.remixContent { originalContent := chooseContent item, sourcePlatform := "reddit", targetPlatform := tp, tone := "professional" } with e | rr
  · intro hp
    simp [stepItem, hR] at hp
  · rcases hP : s.publishContent { content := rr.content, platform := tp, credentials := [("internal_call", "true")] } with e2 | pr <;>
    · intro hp
      simp [stepItem, hR, hP] at hp
      rw [hp]

/-- Lift of `stepItem_publish_credentials` over the whole item loop. -/
theorem processLoop_publish_credentials (s : Collaborators) (tp : String) (limit : Nat) :
    ∀ (items : List ContentItem) (i : Nat) (p : PublishRequest),
      CollabCall.publish p ∈ (processLoop s tp limit i items).2 →
      p.credentials = [("internal_call", "true")] := by
  intro items
  induction items with
  | nil => intro i p hp; simp [processLoop] at hp
  | cons item rest ih =>
    intro i p hp
    by_cases h : limit ≤ i
    · simp [processLoop, h] at hp
    · simp only [processLoop, if_neg h] at hp
      rw [List.mem_append] at hp
      rcases hp with hp | hp
      · exact stepItem_publish_credentials s tp item p hp
      · exact ih (i + 1) p hp

/-- Lift over a full flow run. -/
theorem runCrossPollinator_publish_credentials (s : Collaborators)
    (ps : List (String × String)) (p : PublishRequest) :
    CollabCall.publish p ∈ (runCrossPollinator s ps).2 →
    p.credentials = [("internal_call", "true")] := by
  intro hp
  simp only [runCrossPollinator] at hp
  by_cases hc : mapGet ps "query" = "" ∨ mapGet ps "target_platform" = ""
  · rw [if_pos hc] at hp
    simp at hp
  · rw [if_neg hc] at hp
    rcases hF : s.fetchContent { platform := "reddit", query := mapGet ps "query" } with e | fr
    · rw [hF] at hp
      simp at hp
    · rw [hF] at hp
      simp only [List.mem_cons] at hp
      rcases hp with hp | hp
      · exact absurd hp (by simp)
      · exact processLoop_publish_credentials s (mapGet ps "target_platform") 1 fr.items 0 p hp

/-- Lift over the dispatcher. -/
theorem RunPipeline_publish_credentials (s : Collaborators) (req : PipelineRequest)
    (p : PublishRequest) :
    CollabCall.publish p ∈ (RunPipeline s req).2 →
    p.credentials = [("internal_call", "true")] := by
  intro hp
  unfold RunPipeline at hp
  split at hp
  · exact runCrossPollinator_publish_credentials s req.params p hp
  · split at hp
    · simp at hp
    · simp at hp

/-- Statuses produced by the tenant loop, entry by entry: a disabled
entry yields `skipped`, an enabled one `success` or `failed`. -/
theorem runTenantLoop_statuses (client : RpcClient) (user : User) (mp : String) :
    ∀ ps : List Pipeline,
      List.Forall₂ (fun (p : Pipeline) (r : ExecutionResult) =>
          if p.enabled then r.status = "success" ∨ r.status = "failed"
          else r.status = "skipped")
        ps (runTenantLoop client user mp ps).1 := by
  intro ps
  induction ps with
  | nil => simp [runTenantLoop]
  | cons p rest ih =>
    by_cases hp : p.enabled
    · simp only [runTenantLoop, if_pos hp]
      refine List.Forall₂.cons ?_ ih
      rw [if_pos hp]
      rcases hc : client { flowName := p.name, params := user.credentials, modelProvider := mp } with e | res
      · right; simp [executePipeline, hc]
      · left; simp [executePipeline, hc]
    · simp only [runTenantLoop, if_neg hp]
      refine List.Forall₂.cons ?_ ih
      rw [if_neg hp]

/-- The RPC requests the tenant loop issues: exactly one per enabled
entry, in order, each carrying the tenant's credentials as its parameter
mapping. -/
theorem runTenantLoop_requests (client : RpcClient) (user : User) (mp : String) :
    ∀ ps : List Pipeline,
      (runTenantLoop client user mp ps).2 =
        (ps.filter (fun p => p.enabled)).map
          (fun p => { flowName := p.name, params := user.credentials,
                      modelProvider := mp }) := by
  intro ps
  induction ps with
  | nil => simp [runTenantLoop]
  | cons p rest ih =>
    by_cases hp : p.enabled
    · simp only [runTenantLoop, if_pos hp, List.filter_cons_of_pos hp, List.map_cons]
      rw [ih]
      rcases hc : client { flowName := p.name, params := user.credentials, modelProvider := mp } with e | res <;>
        simp [executePipeline, hc]
    · simp only [runTenantLoop, if_neg hp]
      rw [List.filter_cons_of_neg (by simpa using hp)]
      exact ih

/-- One execution result per pipeline entry of the tenant. -/
theorem runTenantLoop_length (client : RpcClient) (user : User) (mp : String) :
    ∀ ps : List Pipeline, (runTenantLoop client user mp ps).1.length = ps.length := by
  intro ps
  exact (List.Forall₂.length_eq (runTenantLoop_statuses client user mp ps)).symm

/-- One execution result per (tenant × pipeline entry) of the batch. -/
theorem runBatch_length (client : RpcClient) (mp : String) :
    ∀ us : List User,
      (runBatch client mp us).1.length = (us.map (fun u => u.pipelines.length)).sum := by
  intro us
  induction us with
  | nil => simp [runBatch]
  | cons u rest ih =>
    simp [runBatch, runTenantLoop_length client u mp u.pipelines, ih]

/-- The completion signal is zero exactly when no result failed. -/
theorem processExitCode_eq_zero_iff (results : List ExecutionResult) :
    processExitCode results = 0 ↔ ∀ r ∈ results, r.status ≠ "failed" := by
  by_cases h : 0 < countStatus results "failed"
  · rw [processExitCode, if_pos h]
    simp only [one_ne_zero, false_iff, not_forall]
    rcases List.exists_mem_of_length_pos h with ⟨r, hr⟩
    have hm := List.mem_filter.mp hr
    exact ⟨r, hm.1, by simpa using hm.2⟩
  · rw [processExitCode, if_neg h]
    simp only [true_iff]
    intro r hr hst
    apply h
    apply List.length_pos_of_mem (a := r)
    exact List.mem_filter.mpr ⟨hr, by simpa using hst⟩

/-! ## Claim theorems -/

/-- Claim C4: `RunPipeline` classifies the flow identifier without
invoking any collaborator on failure — an unknown identifier yields an
`InvalidArgument` failure with an empty collaborator trace, the
recognized-but-unbuilt `trend_jacker` yields an `Unimplemented` failure
with an empty trace, and the two status codes are distinct. -/
theorem c4_flow_classification (s : Collaborators) (ps : List (String × String))
    (mp : String) (name : String)
    (h1 : name ≠ "cross_pollinator") (h2 : name ≠ "trend_jacker") :
    RunPipeline s { flowName := name, params := ps, modelProvider := mp } =
      (Except.error (PipelineError.grpcStatus ErrCode.invalidArgument
        ("unknown flow: " ++ name)), [])
    ∧ RunPipeline s { flowName := "trend_jacker", params := ps, modelProvider := mp } =
      (Except.error (PipelineError.grpcStatus ErrCode.unimplemented
        "trend_jacker not implemented yet"), [])
    ∧ ErrCode.invalidArgument ≠ ErrCode.unimplemented := by
  refine ⟨?_, ?_, by decide⟩
  · simp [RunPipeline, h1, h2]
  · simp [RunPipeline]

/-- Witness for C4 at the concrete unknown identifier `mystery_flow`. -/
theorem c4_flow_classification_witness :
    ("mystery_flow" ≠ "cross_pollinator" ∧ "mystery_flow" ≠ "trend_jacker")
    ∧ RunPipeline okCollab { flowName := "mystery_flow", params := [], modelProvider := "" } =
        (Except.error (PipelineError.grpcStatus ErrCode.invalidArgument
          "unknown flow: mystery_flow"), []) :=
  ⟨⟨by decide, by decide⟩,
   (c4_flow_classification okCollab [] "" "mystery_flow" (by decide) (by decide)).1⟩

/-- Claim C5: omitting a required parameter key (`query` or
`target_platform`) of the implemented `cross_pollinator` flow makes
`RunPipeline` return the `InvalidArgument` failure with an empty
collaborator trace — the failure precedes any collaborator call. -/
theorem c5_missing_required_param (s : Collaborators) (ps : List (String × String))
    (mp : String)
    (h : ps.lookup "query" = none ∨ ps.lookup "target_platform" = none) :
    RunPipeline s { flowName := "cross_pollinator", params := ps, modelProvider := mp } =
      (Except.error (PipelineError.grpcStatus ErrCode.invalidArgument
        "missing params: query, target_platform"), []) := by
  have hc : mapGet ps "query" = "" ∨ mapGet ps "target_platform" = "" := by
    rcases h with h | h
    · exact Or.inl (by simp [mapGet, h])
    · exact Or.inr (by simp [mapGet, h])
  rcases hc with h1 | h1 <;> simp [RunPipeline, runCrossPollinator, h1]

/-- Witness for C5: a parameter mapping without the `query` key. -/
theorem c5_missing_required_param_witness :
    (([("target_platform", "twitter")] : List (String × String)).lookup "query" = none)
    ∧ RunPipeline okCollab { flowName := "cross_pollinator", params := [("target_platform", "twitter")], modelProvider := "gemini" } =
      (Except.error (PipelineError.grpcStatus ErrCode.invalidArgument
        "missing params: query, target_platform"), []) :=
  ⟨rfl, c5_missing_required_param okCollab [("target_platform", "twitter")] "gemini"
    (Or.inl rfl)⟩

/-- Claim C10: a required parameter mapped to the empty string is
rejected exactly like a missing key — the run returns the very same
`InvalidArgument` value, with an empty collaborator trace, that a request
with an empty parameter mapping produces, so the two cases are not
distinguishable through the public interface. -/
theorem c10_empty_value_equals_missing (s : Collaborators) (ps : List (String × String))
    (mp : String)
    (h : ps.lookup "query" = some "" ∨ ps.lookup "target_platform" = some "") :
    RunPipeline s { flowName := "cross_pollinator", params := ps, modelProvider := mp } =
      (Except.error (PipelineError.grpcStatus ErrCode.invalidArgument
        "missing params: query, target_platform"), [])
    ∧ RunPipeline s { flowName := "cross_pollinator", params := ps, modelProvider := mp } =
        RunPipeline s { flowName := "cross_pollinator", params := [], modelProvider := mp } := by
  have hc : mapGet ps "query" = "" ∨ mapGet ps "target_platform" = "" := by
    rcases h with h | h
    · exact Or.inl (by simp [mapGet, h])
    · exact Or.inr (by simp [mapGet, h])
  have he : RunPipeline s { flowName := "cross_pollinator", params := ps, modelProvider := mp } =
      (Except.error (PipelineError.grpcStatus ErrCode.invalidArgument
        "missing params: query, target_platform"), []) := by
    rcases hc with h1 | h1 <;> simp [RunPipeline, runCrossPollinator, h1]
  refine ⟨he, ?_⟩
  rw [he]
  simp [RunPipeline, runCrossPollinator, mapGet]

/-- Witness for C10: `query` present but mapped to the empty string. -/
theorem c10_empty_value_equals_missing_witness :
    (([("query", ""), ("target_platform", "twitter")] : List (String × String)).lookup
        "query" = some "")
    ∧ RunPipeline okCollab { flowName := "cross_pollinator", params := [("query", ""), ("target_platform", "twitter")], modelProvider := "gemini" } =
      (Except.error (PipelineError.grpcStatus ErrCode.invalidArgument
        "missing params: query, target_platform"), []) :=
  ⟨rfl, (c10_empty_value_equals_missing okCollab
    [("query", ""), ("target_platform", "twitter")] "gemini" (Or.inl rfl)).1⟩

/-- Claim C6: when the mandatory Fetch stage fails, the whole flow
aborts — the run result is a hard error (no `PipelineResponse` is
produced), the error is the `fetch failed` wrapper carrying the
collaborator's original error verbatim, and the collaborator trace
contains only the single fetch call (no Transform, no Publish). -/
theorem c6_fetch_failure_aborts (s : Collaborators) (ps : List (String × String))
    (mp : String) (e : String)
    (h1 : mapGet ps "query" ≠ "") (h2 : mapGet ps "target_platform" ≠ "")
    (hf : s.fetchContent { platform := "reddit", query := mapGet ps "query" } =
            Except.error e) :
    RunPipeline s { flowName := "cross_pollinator", params := ps, modelProvider := mp } =
      (Except.error (PipelineError.fetchFailed e),
       [CollabCall.fetch { platform := "reddit", query := mapGet ps "query" }]) := by
  simp [RunPipeline, runCrossPollinator, h1, h2, hf]

/-- Witness for C6 with a concrete failing fetcher. -/
theorem c6_fetch_failure_aborts_witness :
    (mapGet [("query", "golang"), ("target_platform", "twitter")] "query" ≠ ""
     ∧ mapGet [("query", "golang"), ("target_platform", "twitter")] "target_platform" ≠ ""
     ∧ fetchFailCollab.fetchContent { platform := "reddit", query := "golang" } =
         Except.error "reddit unavailable")
    ∧ RunPipeline fetchFailCollab { flowName := "cross_pollinator", params := [("query", "golang"), ("target_platform", "twitter")], modelProvider := "gemini" } =
      (Except.error (PipelineError.fetchFailed "reddit unavailable"),
       [CollabCall.fetch { platform := "reddit", query := "golang" }]) := by
  refine ⟨⟨by decide, by decide, rfl⟩, ?_⟩
  exact c6_fetch_failure_aborts fetchFailCollab
    [("query", "golang"), ("target_platform", "twitter")] "gemini" "reddit unavailable"
    (by decide) (by decide) rfl

/-- Claim C1 counterexample: a concrete run of the implemented
`cross_pollinator` flow whose Fetch succeeds with zero items. The
response has status `completed` and empty `output_urls`, but its
`error_message` is the empty string — refuting, at this input, the
claim's requirement of a non-empty explanatory `error_message`. -/
theorem c1_counterexample :
    (RunPipeline emptyFetchCollab reqGolang).1 =
      Except.ok { pipelineId := "pipeline-123", status := "completed",
                  outputUrls := [], errorMessage := "" }
    ∧ respErrorMessage (RunPipeline emptyFetchCollab reqGolang).1 = some ""
    ∧ ¬ respErrorMessage (RunPipeline emptyFetchCollab reqGolang).1 ≠ some "" := by
  refine ⟨rfl, rfl, ?_⟩
  intro h
  exact h rfl

/-- Claim C1 (amended): when the Fetch stage of the implemented flow
succeeds but returns zero items, `RunPipeline` returns a response with
status `completed`, an empty `output_urls` list, and an EMPTY
`error_message` (the field is left at its zero value; no explanatory
message is attached); the condition is never reported as an error, and
the only collaborator call made is the single fetch. -/
theorem c1_zero_items_completes (s : Collaborators) (ps : List (String × String))
    (mp : String)
    (h1 : mapGet ps "query" ≠ "") (h2 : mapGet ps "target_platform" ≠ "")
    (hf : s.fetchContent { platform := "reddit", query := mapGet ps "query" } =
            Except.ok { items := [] }) :
    RunPipeline s { flowName := "cross_pollinator", params := ps, modelProvider := mp } =
      (Except.ok { pipelineId := "pipeline-123", status := "completed",
                   outputUrls := [], errorMessage := "" },
       [CollabCall.fetch { platform := "reddit", query := mapGet ps "query" }]) := by
  simp [RunPipeline, runCrossPollinator, h1, h2, hf, processLoop]

/-- Witness for the amended C1 on the concrete zero-item fetcher. -/
theorem c1_zero_items_completes_witness :
    (mapGet [("query", "golang"), ("target_platform", "twitter")] "query" ≠ ""
     ∧ mapGet [("query", "golang"), ("target_platform", "twitter")] "target_platform" ≠ ""
     ∧ emptyFetchCollab.fetchContent { platform := "reddit", query := "golang" } =
         Except.ok { items := [] })
    ∧ RunPipeline emptyFetchCollab { flowName := "cross_pollinator", params := [("query", "golang"), ("target_platform", "twitter")], modelProvider := "gemini" } =
      (Except.ok { pipelineId := "pipeline-123", status := "completed",
                   outputUrls := [], errorMessage := "" },
       [CollabCall.fetch { platform := "reddit", query := "golang" }]) := by
  refine ⟨⟨by decide, by decide, rfl⟩, ?_⟩
  exact c1_zero_items_completes emptyFetchCollab
    [("query", "golang"), ("target_platform", "twitter")] "gemini"
    (by decide) (by decide) rfl

/-- Claim C2 counterexample: a concrete flow run whose request parameters
carry tenant credentials (`page_id`, `access_token`). The Publish call
recorded in the trace carries the hard-coded credentials mapping
`internal_call ↦ true`, which differs from the caller-supplied parameter
mapping (and from its credential entries) — refuting, at this input, the
claim that the Publisher receives the caller's credential mapping
verbatim. -/
theorem c2_counterexample :
    (RunPipeline okCollab reqWithCreds).2 =
      [CollabCall.fetch { platform := "reddit", query := "golang" },
       CollabCall.remix { originalContent := "golang post", sourcePlatform := "reddit",
                          targetPlatform := "twitter", tone := "professional" },
       CollabCall.publish { content := "golang post", platform := "twitter",
                            credentials := [("internal_call", "true")] }]
    ∧ ([("internal_call", "true")] : List (String × String)) ≠ reqWithCreds.params
    ∧ ([("internal_call", "true")] : List (String × String)) ≠
        [("page_id", "123456789"), ("access_token", "EAABs")]
    ∧ reqWithCreds.params.lookup "access_token" = some "EAABs" := by
  refine ⟨rfl, by decide, by decide, rfl⟩

/-- Claim C2 (amended): every Publish invocation made by the flow handler
passes the fixed internal credential mapping `internal_call ↦ true`,
independent of the caller-supplied request parameters; the batch
controller, for its part, does forward the tenant credential mapping
verbatim — as the parameter mapping of the `RunPipeline` request it
issues, untouched key for key and value for value. -/
theorem c2_publish_credentials_fixed (s : Collaborators) (req : PipelineRequest)
    (p : PublishRequest)
    (hp : CollabCall.publish p ∈ (RunPipeline s req).2) :
    p.credentials = [("internal_call", "true")]
    ∧ ∀ (client : RpcClient) (user : User) (pl : Pipeline) (mp : String),
        (executePipeline client user pl mp).2 =
          [{ flowName := pl.name, params := user.credentials, modelProvider := mp }] := by
  refine ⟨RunPipeline_publish_credentials s req p hp, ?_⟩
  intro client user pl mp
  rcases hc : client { flowName := pl.name, params := user.credentials, modelProvider := mp } with e | res <;>
    simp [executePipeline, hc]

/-- Witness for the amended C2 on a concrete run that publishes. -/
theorem c2_publish_credentials_fixed_witness :
    (CollabCall.publish { content := "golang post", platform := "twitter", credentials := [("internal_call", "true")] } ∈ (RunPipeline okCollab reqWithCreds).2)
    ∧ ({ content := "golang post", platform := "twitter", credentials := [("internal_call", "true")] } : PublishRequest).credentials =
        [("internal_call", "true")] := by
  refine ⟨by decide, ?_⟩
  exact (c2_publish_credentials_fixed okCollab reqWithCreds
    { content := "golang post", platform := "twitter", credentials := [("internal_call", "true")] } (by decide)).1

/-- Claim C3: per-item continue-on-error in the item loop. If the
Transform/Publish pipeline fails for an item admitted by the loop's
limit guard, that item contributes no entry to the output list and the
loop's outputs are exactly those of the remaining items; and for every
run of the flow whose Fetch succeeded, the response has status
`completed` and its `output_urls` are exactly the locators of the
successful per-item publications, in order, over the admitted window
(the source pins the loop-local limit to 1). -/
theorem c3_per_item_continue_on_error (s : Collaborators) (tp : String)
    (limit i : Nat) (item : ContentItem) (rest : List ContentItem)
    (hi : i < limit) (hfail : (stepItem s tp item).1 = none) :
    (processLoop s tp limit i (item :: rest)).1 =
      (processLoop s tp limit (i + 1) rest).1
    ∧ ∀ (ps : List (String × String)) (mp : String) (fetched : FetchResponse),
        mapGet ps "query" ≠ "" → mapGet ps "target_platform" ≠ "" →
        s.fetchContent { platform := "reddit", query := mapGet ps "query" } =
          Except.ok fetched →
        (RunPipeline s { flowName := "cross_pollinator", params := ps, modelProvider := mp }).1 =
          Except.ok { pipelineId := "pipeline-123", status := "completed",
                      outputUrls := (fetched.items.take 1).filterMap
                        (fun it => (stepItem s (mapGet ps "target_platform") it).1),
                      errorMessage := "" } := by
  constructor
  · simp only [processLoop, if_neg (Nat.not_le.mpr hi), hfail]
  · intro ps mp fetched hq ht hf
    simp [RunPipeline, runCrossPollinator, hq, ht, hf, processLoop_fst]

/-- Witness for C3: a two-item fetch where the remix stage fails for
the first item. -/
theorem c3_per_item_continue_on_error_witness :
    ((0 : Nat) < 2 ∧ (stepItem remixFailCollab "twitter" plainItem).1 = none)
    ∧ (processLoop remixFailCollab "twitter" 2 0 [plainItem, summarizedItem]).1 =
        (processLoop remixFailCollab "twitter" 2 1 [summarizedItem]).1
    ∧ (RunPipeline remixFailCollab reqGolang).1 =
        Except.ok { pipelineId := "pipeline-123", status := "completed",
                    outputUrls := (([plainItem, summarizedItem].take 1)).filterMap
                      (fun it => (stepItem remixFailCollab "twitter" it).1),
                    errorMessage := "" } := by
  have h := c3_per_item_continue_on_error remixFailCollab "twitter" 2 0 plainItem
    [summarizedItem] (by decide) rfl
  refine ⟨⟨by decide, rfl⟩, h.1, ?_⟩
  exact h.2 [("query", "golang"), ("target_platform", "twitter")] "gemini"
    { items := [plainItem, summarizedItem] } (by decide) (by decide) rfl

/-- Claim C9: the text handed to Transform is a pure selection — the
item's prior analysis summary when present and non-empty (in which case
the single processed item yields exactly one remix call whose original
content is that summary, verbatim), and the raw text when the analysis
is absent or its summary empty. -/
theorem c9_content_source_fallback (s : Collaborators) (tp : String)
    (item : ContentItem) (a : Analysis)
    (ha : item.analysis = some a) (hs : a.summary ≠ "") :
    chooseContent item = a.summary
    ∧ remixCallsOf (processLoop s tp 1 0 [item]).2 =
        [{ originalContent := a.summary, sourcePlatform := "reddit",
           targetPlatform := tp, tone := "professional" }]
    ∧ (∀ it : ContentItem, it.analysis = none → chooseContent it = it.contentText)
    ∧ (∀ (it : ContentItem) (b : Analysis), it.analysis = some b → b.summary = "" →
        chooseContent it = it.contentText) := by
  have hc : chooseContent item = a.summary := by simp [chooseContent, ha, hs]
  refine ⟨hc, ?_, ?_, ?_⟩
  · have h2 := remixCallsOf_stepItem s tp item
    rw [hc] at h2
    simpa [processLoop] using h2
  · intro it h
    simp [chooseContent, h]
  · intro it b h h0
    simp [chooseContent, h, h0]

/-- Witness for C9: a single item with a non-empty prior summary, run
against collaborators whose remix echoes its input. -/
theorem c9_content_source_fallback_witness :
    (summarizedItem.analysis = some { summary := "a concise summary" }
     ∧ ("a concise summary" : String) ≠ "")
    ∧ chooseContent summarizedItem = "a concise summary"
    ∧ remixCallsOf (processLoop okCollab "twitter" 1 0 [summarizedItem]).2 =
        [{ originalContent := "a concise summary", sourcePlatform := "reddit",
           targetPlatform := "twitter", tone := "professional" }] := by
  have h := c9_content_source_fallback okCollab "twitter" summarizedItem
    { summary := "a concise summary" } rfl (by decide)
  exact ⟨⟨rfl, by decide⟩, h.1, h.2.1⟩

/-- Claim C7: for every tenant, the controller produces exactly one
`ExecutionResult` per pipeline entry (enabled or not) — entry by entry a
disabled one yields status `skipped` and an enabled one `success` or
`failed` — and the `RunPipeline` requests it issues are exactly one per
enabled entry, in order (so a disabled entry triggers zero calls). -/
theorem c7_one_result_per_entry (client : RpcClient) (user : User) (mp : String) :
    List.Forall₂ (fun (p : Pipeline) (r : ExecutionResult) =>
        if p.enabled then r.status = "success" ∨ r.status = "failed"
        else r.status = "skipped")
      user.pipelines (runTenantLoop client user mp user.pipelines).1
    ∧ (runTenantLoop client user mp user.pipelines).1.length = user.pipelines.length
    ∧ (runTenantLoop client user mp user.pipelines).2 =
        (user.pipelines.filter (fun p => p.enabled)).map
          (fun p => { flowName := p.name, params := user.credentials,
                      modelProvider := mp }) :=
  ⟨runTenantLoop_statuses client user mp user.pipelines,
   runTenantLoop_length client user mp user.pipelines,
   runTenantLoop_requests client user mp user.pipelines⟩

/-- Claim C8: a `RunPipeline` failure is captured into that pipeline's
result with status `failed` and the failure cause; the batch loop is
never aborted — the batch always yields one result per (tenant ×
pipeline entry), whatever the client returns — and the process
completion signal is zero exactly when no result has status `failed`. -/
theorem c8_failure_isolation (client : RpcClient) (users : List User)
    (mp : String) (user : User) (p : Pipeline) (e : PipelineError)
    (hfail : client { flowName := p.name, params := user.credentials,
                      modelProvider := mp } = Except.error e) :
    (executePipeline client user p mp).1.status = "failed"
    ∧ (executePipeline client user p mp).1.errCause = some e
    ∧ (runBatch client mp users).1.length =
        (users.map (fun u => u.pipelines.length)).sum
    ∧ (processExitCode (runBatch client mp users).1 = 0 ↔
        ∀ r ∈ (runBatch client mp users).1, r.status ≠ "failed") := by
  refine ⟨?_, ?_, runBatch_length client mp users,
    processExitCode_eq_zero_iff (runBatch client mp users).1⟩
  · simp [executePipeline, hfail]
  · simp [executePipeline, hfail]

/-- Witness for C8: a client stub that fails every call, run over one
tenant with three pipeline entries (two enabled, one disabled). -/
theorem c8_failure_isolation_witness :
    (failingClient { flowName := "facebook_echo", params := sampleUser.credentials, modelProvider := "gemini" } = Except.error (PipelineError.fetchFailed "boom"))
    ∧ (executePipeline failingClient sampleUser { name := "facebook_echo", enabled := true } "gemini").1.status = "failed"
    ∧ (runBatch failingClient "gemini" [sampleUser]).1.length = 3 := by
  have h := c8_failure_isolation failingClient [sampleUser] "gemini" sampleUser
    { name := "facebook_echo", enabled := true } (PipelineError.fetchFailed "boom") rfl
  refine ⟨rfl, h.1, ?_⟩
  rw [h.2.2.1]
  decide

end Orchestrator
